import Mathlib

/-!
Shallow embedding of the QFlow web-QA agent (`src/qaAgent.ts`) and proofs
about its detection-and-reporting core: the bug ledger, the evidence capture,
the workflow action engine, the oracle (LLM) error handling, selected
detectors (SEO, broken links), and the report compiler.

Browser, file-system and oracle interactions are modelled as explicit
environments: each fallible external primitive is a field of an environment
record returning `Except` values, and the agent code is translated into pure
Lean functions over those environments.  Machine integers in the source are
plain JS numbers used as array lengths and counts, so `Nat`/`Int` model them
exactly on the ranges involved.
-/

namespace QFlow

/-- `type Severity = 'Low' | 'Medium' | 'High' | 'Critical'` (qaAgent.ts). -/
inductive Severity where
  | Low | Medium | High | Critical
deriving DecidableEq, Repr

/-- `type Category = ...` (qaAgent.ts). -/
inductive Category where
  | Navigation | Console | Network | Accessibility | SEO | Security
  | Performance | Layout | Functional | Content | UX
deriving DecidableEq, Repr

/-- String rendering of a severity, as it appears in report/template strings. -/
def sevStr : Severity → String
  | .Low => "Low" | .Medium => "Medium" | .High => "High" | .Critical => "Critical"

/-- String rendering of a category. -/
def catStr : Category → String
  | .Navigation => "Navigation" | .Console => "Console" | .Network => "Network"
  | .Accessibility => "Accessibility" | .SEO => "SEO" | .Security => "Security"
  | .Performance => "Performance" | .Layout => "Layout" | .Functional => "Functional"
  | .Content => "Content" | .UX => "UX"

/-- `type BugEntry` (qaAgent.ts): `details?` is optional, hence `Option`. -/
structure BugEntry where
  id : String
  title : String
  severity : Severity
  category : Category
  description : String
  steps : List String
  evidence : List String
  details : Option (List String)
deriving DecidableEq, Repr

/-- `type FailedRequest` (qaAgent.ts). -/
structure FailedRequest where
  url : String
  method : String
  resourceType : String
  status : Option Nat
  failure : Option String
deriving DecidableEq, Repr

/-- `type WorkflowStep` (qaAgent.ts). -/
structure WorkflowStep where
  action : String
  target : Option String
  value : Option String
  expect : Option String
deriving DecidableEq, Repr

/-- `type WorkflowResult` (qaAgent.ts). -/
structure WorkflowResult where
  name : String
  steps : List WorkflowStep
  passed : Bool
  error : Option String
deriving DecidableEq, Repr

-- ── String helpers from qaAgent.ts ─────────────────────────────────────────────

/-- Is `c` a lowercase-ASCII letter or digit (the class `[a-z0-9]` of `slug`)? -/
def isLowerAlnum (c : Char) : Bool :=
  (Char.ofNat 97 ≤ c && c ≤ Char.ofNat 122) || (Char.ofNat 48 ≤ c && c ≤ Char.ofNat 57)

/-- Collapse consecutive dashes into one (the effect of the `+` quantifier in
`replace(/[^a-z0-9]+/g, '-')` after each non-alphanumeric char was mapped to a dash). -/
def squashDashes : List Char → List Char
  | [] => []
  | c :: rest =>
    match squashDashes rest with
    | [] => [c]
    | d :: t => if c == '-' && d == '-' then d :: t else c :: d :: t

/-- Drop a single leading dash (the `^-` alternative of `replace(/(^-|-$)/g, '')`). -/
def dropLeadDash : List Char → List Char
  | '-' :: rest => rest
  | l => l

/-- Drop a single trailing dash (the `-$` alternative of `replace(/(^-|-$)/g, '')`). -/
def dropTrailDash (l : List Char) : List Char :=
  (dropLeadDash l.reverse).reverse

/-- `const slug = (v) => (v.toLowerCase().replace(/[^a-z0-9]+/g,'-').replace(/(^-|-$)/g,'') || 'ev')`. -/
def slug (v : String) : String :=
  let lowered := v.toLower.toList
  let dashed := lowered.map (fun c => if isLowerAlnum c then c else '-')
  let collapsed := dropTrailDash (dropLeadDash (squashDashes dashed))
  if collapsed.isEmpty then "ev" else String.mk collapsed

/-- `String(n).padStart(w, c)` on a numeral string. -/
def padStart (w : Nat) (c : Char) (s : String) : String :=
  String.mk (List.replicate (w - s.length) c) ++ s

/-- The ledger id scheme: `` `BUG-${String(n).padStart(3,'0')}` ``. -/
def bugId (n : Nat) : String :=
  "BUG-" ++ padStart 3 '0' (toString n)

-- ── Evidence capture (`takeScreenshot`) ────────────────────────────────────────

/-- `takeScreenshot` (qaAgent.ts:794): builds `${slug(label)}-${Date.now()}.png`
under `ctx.screenshotDir` and returns the path relative to `ctx.outputRoot`
(which is `screenshots/<file>` since `buildCtx` sets
`screenshotDir = join(outputRoot, 'screenshots')`).  The screenshot call
itself is `await page.screenshot({...}).catch(() => {})`: a capture failure
(`shotOk = false`) is swallowed and the relative path is returned regardless,
so the result does not depend on `shotOk` or `fullPage`. -/
def takeScreenshot (_shotOk : Bool) (label : String) (_fullPage : Bool) (time : Nat) : String :=
  "screenshots/" ++ slug label ++ "-" ++ toString time ++ ".png"

-- ── Bug ledger (`bugs`, `addBug`, responsive direct push) ──────────────────────

/-- The option record passed to `addBug` (qaAgent.ts:810). -/
structure AddBugOpts where
  title : String
  severity : Severity
  category : Category
  description : String
  steps : List String
  evidenceLabel : String
  details : Option (List String)
  fullPage : Option Bool
deriving DecidableEq, Repr

/-- `addBug` (qaAgent.ts:810): computes `id = BUG-<ledger length + 1>`, captures
one screenshot labelled `${id}-${opts.evidenceLabel}` (full page unless
`opts.fullPage` is set false), and pushes one entry whose `evidence` is the
one-element array `[shot]`.  `shotOk` is whether the screenshot capture
succeeds and `time` is `Date.now()` at the capture. -/
def addBug (acc : List BugEntry) (o : AddBugOpts) (shotOk : Bool) (time : Nat) :
    List BugEntry :=
  let id := bugId (acc.length + 1)
  let shot := takeScreenshot shotOk (id ++ "-" ++ o.evidenceLabel) (o.fullPage.getD true) time
  acc ++ [{ id := id, title := o.title, severity := o.severity, category := o.category,
            description := o.description, steps := o.steps, evidence := [shot],
            details := o.details }]

/-- A commit-path event of one run: either some caller invokes `addBug`, or the
responsive detector (`checkResponsive`, qaAgent.ts:1497) reaches its direct
`bugs.push` with the mobile-viewport issue list it computed (it pushes only
when that list is non-empty). -/
inductive CommitEvent where
  | add (o : AddBugOpts) (shotOk : Bool) (time : Nat)
  | responsive (issues : List String) (shotOk : Bool) (time : Nat)
deriving Repr

/-- One step of the ledger state machine.  The `responsive` branch mirrors
qaAgent.ts:1497-1510: `if (issues.length) { const shot = await takeScreenshot(...,
'responsive-mobile', true); const id = BUG-<len+1>; bugs.push({...}) }`. -/
def ledgerStep (acc : List BugEntry) : CommitEvent → List BugEntry
  | .add o shotOk time => addBug acc o shotOk time
  | .responsive issues shotOk time =>
    if issues.length ≠ 0 then
      let shot := takeScreenshot shotOk "responsive-mobile" true time
      let id := bugId (acc.length + 1)
      acc ++ [{ id := id,
                title := toString issues.length ++ " responsive design issue(s)",
                severity := .Medium, category := .Layout,
                description := "Page has layout problems at mobile viewport (375px).",
                steps := ["Open target URL on a 375px-wide viewport"],
                evidence := [shot], details := some issues }]
    else acc

/-- The ledger produced by a run: the fold of its commit events over the
initially empty `bugs` array. -/
def runLedger (events : List CommitEvent) : List BugEntry :=
  events.foldl ledgerStep []

/-- The id sequence `BUG-001, ..., BUG-N` for a ledger of length `n`. -/
def idSeq (n : Nat) : List String :=
  (List.range n).map (fun i => bugId (i + 1))

lemma idSeq_succ (n : Nat) : idSeq (n + 1) = idSeq n ++ [bugId (n + 1)] := by
  simp [idSeq, List.range_succ]

lemma ledgerStep_length_ids (acc : List BugEntry) (e : CommitEvent)
    (h : acc.map BugEntry.id = idSeq acc.length) :
    (ledgerStep acc e).map BugEntry.id = idSeq (ledgerStep acc e).length := by
  have append_case :
      ∀ (b : BugEntry), b.id = bugId (acc.length + 1) →
        (acc ++ [b]).map BugEntry.id = idSeq (acc ++ [b]).length := by
    intro b hb
    have hl : (acc ++ [b]).length = acc.length + 1 := by simp
    rw [hl, idSeq_succ, List.map_append, h]
    simp [hb]
  cases e with
  | add o shotOk time =>
    simp only [ledgerStep, addBug]
    exact append_case _ rfl
  | responsive issues shotOk time =>
    simp only [ledgerStep]
    by_cases hi : issues.length ≠ 0
    · rw [if_pos hi]
      exact append_case _ rfl
    · rw [if_neg hi]
      exact h

lemma runLedger_aux_ids (events : List CommitEvent) :
    ∀ acc : List BugEntry, acc.map BugEntry.id = idSeq acc.length →
      (events.foldl ledgerStep acc).map BugEntry.id =
        idSeq (events.foldl ledgerStep acc).length := by
  induction events with
  | nil => intro acc h; simpa using h
  | cons e rest ih =>
    intro acc h
    exact ih (ledgerStep acc e) (ledgerStep_length_ids acc e h)

/-- C1: across any single run (any sequence of commit events, through `addBug`
or the responsive detector's direct push), the ledger's ids are exactly
`BUG-001, BUG-002, ..., BUG-N` where `N` is the number of committed bugs:
each commit assigns `BUG-<current length + 1>`, so ids are contiguous,
gap-free, and never reused. -/
theorem bug_ids_contiguous (events : List CommitEvent) :
    (runLedger events).map BugEntry.id = idSeq (runLedger events).length := by
  exact runLedger_aux_ids events [] (by rfl)

lemma ledgerStep_evidence (acc : List BugEntry) (e : CommitEvent)
    (h : ∀ b ∈ acc, b.evidence.length = 1) :
    ∀ b ∈ ledgerStep acc e, b.evidence.length = 1 := by
  cases e with
  | add o shotOk time =>
    intro b hb
    simp only [ledgerStep, addBug] at hb
    rcases List.mem_append.mp hb with hmem | hmem
    · exact h b hmem
    · rcases List.mem_singleton.mp hmem with rfl
      rfl
  | responsive issues shotOk time =>
    intro b hb
    simp only [ledgerStep] at hb
    by_cases hi : issues.length ≠ 0
    · rw [if_pos hi] at hb
      rcases List.mem_append.mp hb with hmem | hmem
      · exact h b hmem
      · rcases List.mem_singleton.mp hmem with rfl
        rfl
    · rw [if_neg hi] at hb
      exact h b hb

lemma runLedger_aux_evidence (events : List CommitEvent) :
    ∀ acc : List BugEntry, (∀ b ∈ acc, b.evidence.length = 1) →
      ∀ b ∈ events.foldl ledgerStep acc, b.evidence.length = 1 := by
  induction events with
  | nil => intro acc h; simpa using h
  | cons e rest ih =>
    intro acc h
    exact ih (ledgerStep acc e) (ledgerStep_evidence acc e h)

/-- C2: every committed bug has exactly one evidence path (hence a non-empty
evidence array), on every run and even when every screenshot capture fails;
and `takeScreenshot` returns the same relative path whether or not the
capture succeeds, because `page.screenshot(...).catch(() => {})` swallows the
error. -/
theorem evidence_nonempty :
    (∀ events : List CommitEvent, ∀ b ∈ runLedger events,
        b.evidence.length = 1 ∧ b.evidence ≠ []) ∧
    (∀ (label : String) (fullPage : Bool) (time : Nat),
        takeScreenshot false label fullPage time = takeScreenshot true label fullPage time) := by
  constructor
  · intro events b hb
    have h1 := runLedger_aux_evidence events [] (by intro b hb; cases hb) b hb
    refine ⟨h1, ?_⟩
    intro hnil
    rw [hnil] at h1
    cases h1
  · intro label fullPage time
    rfl

/-- Witness for C2 at a concrete run: one `addBug` commit with a failing
screenshot capture still yields a bug whose evidence list has one element. -/
theorem evidence_nonempty_witness :
    ∀ b ∈ runLedger [CommitEvent.add
        { title := "t", severity := .Low, category := .SEO, description := "d",
          steps := [], evidenceLabel := "ev", details := none, fullPage := none }
        false 7],
      b.evidence.length = 1 ∧ b.evidence ≠ [] := by
  intro b hb
  exact evidence_nonempty.1 _ b hb

-- ── Workflow Action Engine (`executeLLMAction`, qaAgent.ts:404-513) ───────────

/-- The fixed action shape the oracle is asked to return
(`type LLMAction`, qaAgent.ts:330-341).  `action` is kept as a raw string
because the JSON parse performs no shape validation (the `default:` switch
arm handles unknown values). -/
structure LLMAction where
  action : String
  selector : Option String
  text : Option String
  value : Option String
  url : Option String
  key : Option String
  reasoning : String
deriving DecidableEq, Repr

/-- The result record of a single action
(`{ description: string; error: boolean; jsErrors: number }`). -/
structure ActionResult where
  description : String
  error : Bool
  jsErrors : Int
deriving DecidableEq, Repr

/-- JS truthiness of an optional string: `undefined` and `''` are falsy. -/
def truthyO : Option String → Bool
  | none => false
  | some s => s != ""

/-- `` `${action.text || action.selector}` ``: JS short-circuit `||` followed by
template interpolation (an `undefined` operand prints as `"undefined"`). -/
def jsOr (t s : Option String) : String :=
  if truthyO t then t.getD ""
  else match s with
    | some v => v
    | none => "undefined"

/-- `` `${action.value}` ``: raw interpolation of the possibly-absent value. -/
def jsValStr (v : Option String) : String :=
  match v with
  | some s => s
  | none => "undefined"

/-- A Playwright locator descriptor: `page.getByText(text).first()`,
`page.getByPlaceholder(text).first()`, or `page.locator(selector).first()`. -/
inductive Descriptor where
  | byText (t : String)
  | byPlaceholder (t : String)
  | bySelector (s : String)
deriving DecidableEq, Repr

/-- The browser-driver environment for one `executeLLMAction` invocation: each
fallible Playwright primitive either returns or throws (`Except.error` with
the error message).  `pageErrorsBefore`/`pageErrorsAfter` are the lengths of
the global `pageErrors` accumulator at entry and at the return point,
giving the `pageErrors.length - errorsBefore` delta. -/
structure PageEnv where
  isVisible : Descriptor → Except String Bool
  click : Descriptor → Except String Unit
  fill : Descriptor → String → Except String Unit
  hover : Descriptor → Except String Unit
  scrollEval : Except String Unit
  goto : String → Except String Unit
  press : String → Except String Unit
  pageErrorsBefore : Nat
  pageErrorsAfter : Nat

/-- `pageErrors.length - errorsBefore` at the return point. -/
def jsDelta (env : PageEnv) : Int :=
  (env.pageErrorsAfter : Int) - (env.pageErrorsBefore : Int)

/-- Locator choice for `click`/`hover`: `if (action.text) getByText else if
(action.selector) locator(selector) else undefined`. -/
def clickTarget (a : LLMAction) : Option Descriptor :=
  if truthyO a.text then some (.byText (a.text.getD ""))
  else if truthyO a.selector then some (.bySelector (a.selector.getD ""))
  else none

/-- Locator choice for `fill`: `if (action.text) getByPlaceholder else if
(action.selector) locator(selector) else undefined`. -/
def fillTarget (a : LLMAction) : Option Descriptor :=
  if truthyO a.text then some (.byPlaceholder (a.text.getD ""))
  else if truthyO a.selector then some (.bySelector (a.selector.getD ""))
  else none

/-- The `try`-block body of `executeLLMAction` (qaAgent.ts:412-505), with each
thrown Playwright fault made explicit as `Except.error`.  `isVisible` failures
are locally swallowed by `.catch(() => false)`; `waitForTimeout` cannot throw
and is omitted. -/
def executeLLMActionBody (env : PageEnv) (a : LLMAction) : Except String ActionResult :=
  if a.action == "click" then
    match clickTarget a with
    | none => .ok ⟨"No target for click", true, 0⟩
    | some loc =>
      let visible := match env.isVisible loc with | .ok b => b | .error _ => false
      if !visible then
        .ok ⟨"Element \"" ++ jsOr a.text a.selector ++ "\" not visible", true, 0⟩
      else do
        let _ ← env.click loc
        .ok ⟨"Clicked \"" ++ jsOr a.text a.selector ++ "\"", false, jsDelta env⟩
  else if a.action == "fill" then
    match fillTarget a with
    | none => .ok ⟨"No target for fill", true, 0⟩
    | some loc =>
      let visible := match env.isVisible loc with | .ok b => b | .error _ => false
      if !visible then
        .ok ⟨"Input \"" ++ jsOr a.text a.selector ++ "\" not visible", true, 0⟩
      else do
        let _ ← env.click loc
        let _ ← env.fill loc (a.value.getD "test")
        .ok ⟨"Filled \"" ++ jsOr a.text a.selector ++ "\" with \"" ++ jsValStr a.value ++ "\"",
             false, jsDelta env⟩
  else if a.action == "scroll" then do
    let _ ← env.scrollEval
    .ok ⟨"Scrolled down 600px", false, jsDelta env⟩
  else if a.action == "hover" then
    match clickTarget a with
    | none => .ok ⟨"No target for hover", true, 0⟩
    | some loc => do
      let _ ← env.hover loc
      .ok ⟨"Hovered \"" ++ jsOr a.text a.selector ++ "\"", false, jsDelta env⟩
  else if a.action == "navigate" then
    if truthyO a.url then do
      let _ ← env.goto (a.url.getD "")
      .ok ⟨"Navigated to " ++ a.url.getD "", false, jsDelta env⟩
    else .ok ⟨"No URL for navigate", true, 0⟩
  else if a.action == "press_key" then
    let key := if truthyO a.key then a.key.getD "" else "Enter"
    do
      let _ ← env.press key
      .ok ⟨"Pressed key: " ++ key, false, jsDelta env⟩
  else if a.action == "done" then
    .ok ⟨"LLM decided testing is complete", false, 0⟩
  else
    .ok ⟨"Unknown action: " ++ a.action, true, 0⟩

/-- `executeLLMAction`: the body wrapped in the `try/catch` whose handler
returns `{ description: "Action failed: " + message.slice(0,100), error: true,
jsErrors: pageErrors.length - errorsBefore }`. -/
def executeLLMAction (env : PageEnv) (a : LLMAction) : ActionResult :=
  match executeLLMActionBody env a with
  | .ok r => r
  | .error msg => ⟨"Action failed: " ++ msg.take 100, true, jsDelta env⟩

/-- C3: for every action kind and every environment (including locators that
match nothing), `executeLLMAction` returns a result record and never
propagates a fault: either the body completes and its record is returned, or
the body throws and the fault is converted into an `"Action failed: ..."`
record with `error := true`; and in particular a click whose selector target
is not visible yields the `"... not visible"` negative outcome without
throwing. -/
theorem performAction_never_throws :
    (∀ (env : PageEnv) (a : LLMAction),
        (∃ r, executeLLMActionBody env a = .ok r ∧ executeLLMAction env a = r) ∨
        (∃ msg, executeLLMActionBody env a = .error msg ∧
          executeLLMAction env a =
            ⟨"Action failed: " ++ msg.take 100, true, jsDelta env⟩)) ∧
    (∀ (env : PageEnv) (a : LLMAction) (sel : String),
        a.action = "click" → a.text = none → a.selector = some sel → sel ≠ "" →
        env.isVisible (.bySelector sel) = .ok false →
        executeLLMAction env a = ⟨"Element \"" ++ sel ++ "\" not visible", true, 0⟩) := by
  constructor
  · intro env a
    cases h : executeLLMActionBody env a with
    | ok r => exact Or.inl ⟨r, rfl, by rw [executeLLMAction, h]⟩
    | error msg => exact Or.inr ⟨msg, rfl, by rw [executeLLMAction, h]⟩
  · intro env a sel h1 h2 h3 hne hvis
    have hsel : truthyO (some sel) = true := by
      simp [truthyO, hne]
    rw [executeLLMAction, executeLLMActionBody]
    simp [h1, h2, h3, clickTarget, truthyO, hne, hvis, jsOr]

/-- A browser environment where every locator resolves invisible. -/
def pageEnvAllHidden : PageEnv where
  isVisible := fun _ => .ok false
  click := fun _ => .ok ()
  fill := fun _ _ => .ok ()
  hover := fun _ => .ok ()
  scrollEval := .ok ()
  goto := fun _ => .ok ()
  press := fun _ => .ok ()
  pageErrorsBefore := 0
  pageErrorsAfter := 0

/-- A concrete click action targeting the selector `.x`. -/
def clickDotX : LLMAction :=
  { action := "click", selector := some ".x", text := none, value := none,
    url := none, key := none, reasoning := "r" }

/-- Witness for C3: clicking a selector that matches no visible element
produces the concrete "not visible" record rather than a fault. -/
theorem performAction_never_throws_witness :
    executeLLMAction pageEnvAllHidden clickDotX =
      ⟨"Element \".x\" not visible", true, 0⟩ :=
  performAction_never_throws.2 pageEnvAllHidden clickDotX ".x"
    rfl rfl rfl (by decide) rfl

-- ── Oracle (Gemini) error handling (`askGemini`, `getNextTestAction`) ──────────

/-- External-call effects performed by the agent, for frame reasoning: a
network call to the oracle service, file-system writes, and browser-driver
calls. -/
inductive Effect where
  | oracleNet | fsMkdir | fsWrite | browser
deriving DecidableEq, Repr

/-- Does the character list start with the pattern? (JS `String.includes`
helper.) -/
def startsWithCh : List Char → List Char → Bool
  | _, [] => true
  | [], _ :: _ => false
  | a :: as, b :: bs => a == b && startsWithCh as bs

/-- Does the character list contain the pattern as a contiguous run? -/
def hasSubCh : List Char → List Char → Bool
  | [], pat => startsWithCh [] pat
  | s@(_ :: rest), pat => startsWithCh s pat || hasSubCh rest pat

/-- JS `s.includes(pat)`. -/
def strIncludes (s pat : String) : Bool :=
  hasSubCh s.toList pat.toList

/-- The rate-limit test of `askGemini`'s catch handler:
`msg.includes('429') || msg.includes('RESOURCE_EXHAUSTED')`. -/
def rateLimitedMsg (msg : String) : Bool :=
  strIncludes msg "429" || strIncludes msg "RESOURCE_EXHAUSTED"

/-- The oracle service as seen by one `askGemini` invocation: whether a model
is configured (`geminiModel !== null`), and the outcome of the first
`generateContent` call and of the single retry, each either returning text or
throwing with a message. -/
structure OracleEnv where
  available : Bool
  call1 : Except String String
  call2 : Except String String

/-- `askGemini` (qaAgent.ts:105-124) with its effect trace: returns `''` when
no model is configured; otherwise performs the network call; on a thrown
error whose message signals a rate limit it waits 15s and retries exactly
once, returning `''` if the retry also throws; any other error returns `''`.
The prompt argument is carried for call-shape fidelity; the modelled service
response does not depend on it. -/
def askGeminiRun (env : OracleEnv) (_prompt : String) : String × List Effect :=
  if !env.available then ("", [])
  else
    match env.call1 with
    | .ok t => (t, [.oracleNet])
    | .error e =>
      if rateLimitedMsg e then
        match env.call2 with
        | .ok t => (t, [.oracleNet, .oracleNet])
        | .error _ => ("", [.oracleNet, .oracleNet])
      else ("", [.oracleNet])

/-- The `{action: 'done'}` record `getNextTestAction` builds (only `action`
and `reasoning` are set). -/
def doneAction (reasoning : String) : LLMAction :=
  { action := "done", selector := none, text := none, value := none,
    url := none, key := none, reasoning := reasoning }

/-- The parse step of `getNextTestAction` (qaAgent.ts:343-401): `raw` is the
text returned by the vision oracle call; `jsonParse` models
`JSON.parse(raw.replace(/```json\s*\n?/g,'').replace(/```\s*$/g,'').trim())`
cast to the fixed shape, with `none` standing for `JSON.parse` throwing.  If
no model is configured the planner returns `done` without calling the
oracle; on parse failure it returns `done`. -/
def getNextTestAction (avail : Bool) (raw : String)
    (jsonParse : String → Option LLMAction) : LLMAction :=
  if !avail then doneAction "LLM not available"
  else
    match jsonParse raw with
    | some a => a
    | none => doneAction "Could not parse LLM response"

/-- C9: oracle failures are never fatal and degrade to empty/`done` results:
a first-call error that is not a rate-limit signal yields `''`; a rate-limit
signal followed by a failed retry yields `''`; and whenever the planner's
response does not parse as the fixed action shape, `getNextTestAction`
returns an action record with `action = 'done'`. -/
theorem oracle_failures_degrade :
    (∀ (env : OracleEnv) (prompt e : String),
        env.call1 = .error e → rateLimitedMsg e = false →
        (askGeminiRun env prompt).1 = "") ∧
    (∀ (env : OracleEnv) (prompt e1 e2 : String),
        env.call1 = .error e1 → rateLimitedMsg e1 = true → env.call2 = .error e2 →
        (askGeminiRun env prompt).1 = "") ∧
    (∀ (avail : Bool) (raw : String) (jsonParse : String → Option LLMAction),
        jsonParse raw = none →
        (getNextTestAction avail raw jsonParse).action = "done") := by
  refine ⟨?_, ?_, ?_⟩
  · intro env prompt e h1 hrl
    cases hav : env.available with
    | false => simp [askGeminiRun, hav]
    | true => simp [askGeminiRun, hav, h1, hrl]
  · intro env prompt e1 e2 h1 hrl h2
    cases hav : env.available with
    | false => simp [askGeminiRun, hav]
    | true => simp [askGeminiRun, hav, h1, hrl, h2]
  · intro avail raw jsonParse hp
    cases avail with
    | false => rfl
    | true => simp [getNextTestAction, hp, doneAction]

/-- Witness for C9 at concrete inputs: a non-rate-limit network error, a
rate-limited call with failed retry, and an unparseable oracle reply. -/
theorem oracle_failures_degrade_witness :
    (askGeminiRun ⟨true, .error "fetch failed", .ok "text"⟩ "p").1 = "" ∧
    (askGeminiRun ⟨true, .error "429 RESOURCE_EXHAUSTED", .error "429 again"⟩ "p").1 = "" ∧
    (getNextTestAction true "not json at all" (fun _ => none)).action = "done" :=
  ⟨oracle_failures_degrade.1 ⟨true, .error "fetch failed", .ok "text"⟩ "p"
      "fetch failed" rfl (by decide),
   oracle_failures_degrade.2.1 ⟨true, .error "429 RESOURCE_EXHAUSTED", .error "429 again"⟩
      "p" "429 RESOURCE_EXHAUSTED" "429 again" rfl (by decide) rfl,
   oracle_failures_degrade.2.2 true "not json at all" (fun _ => none) rfl⟩

-- ── SEO detector (`checkSEO`, qaAgent.ts:958-1045) ─────────────────────────────

/-- Drop leading whitespace characters. -/
def dropLeadWS : List Char → List Char
  | [] => []
  | c :: rest => if c.isWhitespace then dropLeadWS rest else c :: rest

/-- JS `s.trim()`: strip leading and trailing whitespace. -/
def jsTrim (s : String) : String :=
  String.mk (dropLeadWS (dropLeadWS s.toList).reverse).reverse

/-- The head/meta state `checkSEO` evaluates in the page (all string fields
already `.trim()`-ed as in the source, `''` when absent). -/
structure SEOMeta where
  description : String
  viewport : String
  ogTitle : String
  ogImage : String
  charset : Bool
  lang : String
  canonical : String
  favicon : Bool
deriving DecidableEq, Repr

/-- The `addBug` options for the empty-`<title>` commit. -/
def seoTitleOpts : AddBugOpts :=
  { title := "Missing page <title>", severity := .Medium, category := .SEO,
    description := "The page has no <title> or it is empty — hurts SEO and browser tab UX.",
    steps := ["Open target URL", "Inspect <head>"], evidenceLabel := "missing-title",
    details := none, fullPage := none }

/-- The `addBug` options for the missing meta-description commit. -/
def seoDescriptionOpts : AddBugOpts :=
  { title := "Missing meta description", severity := .Low, category := .SEO,
    description := "No <meta name=\"description\"> found — important for search engine snippets.",
    steps := ["Inspect <head>"], evidenceLabel := "missing-description",
    details := none, fullPage := none }

/-- The `addBug` options for the missing viewport commit. -/
def seoViewportOpts : AddBugOpts :=
  { title := "Missing viewport meta tag", severity := .Medium, category := .SEO,
    description := "Without a viewport meta tag the page may not render correctly on mobile.",
    steps := ["Inspect <head>"], evidenceLabel := "missing-viewport",
    details := none, fullPage := none }

/-- The `addBug` options for the missing `lang` commit (Accessibility). -/
def seoLangOpts : AddBugOpts :=
  { title := "Missing lang attribute on <html>", severity := .Low, category := .Accessibility,
    description := "Screen readers need a lang attribute to choose the right pronunciation.",
    steps := ["Inspect <html> element"], evidenceLabel := "missing-lang",
    details := none, fullPage := none }

/-- The `addBug` options for the missing favicon commit (UX). -/
def seoFaviconOpts : AddBugOpts :=
  { title := "Missing favicon", severity := .Low, category := .UX,
    description := "No favicon link detected; the browser will show a generic icon.",
    steps := ["Check browser tab icon"], evidenceLabel := "missing-favicon",
    details := none, fullPage := none }

/-- The `addBug` options for the missing Open Graph commit. -/
def seoOgOpts : AddBugOpts :=
  { title := "Missing Open Graph tags", severity := .Low, category := .SEO,
    description := "No og:title / og:image found — shared links will have poor previews.",
    steps := ["Inspect <head> for og: meta tags"], evidenceLabel := "missing-og",
    details := none, fullPage := none }

/-- `checkSEO`: given the page title (`page.title()`, trimmed inside) and the
evaluated meta state, the ordered sequence of `addBug` commits it performs.
Each `if (!x)` tests JS falsiness, which for these trimmed strings means
equality with `''`. -/
def checkSEOCommits (rawTitle : String) (meta : SEOMeta) : List AddBugOpts :=
  let title := jsTrim rawTitle
  (if title == "" then [seoTitleOpts] else [])
    ++ (if meta.description == "" then [seoDescriptionOpts] else [])
    ++ (if meta.viewport == "" then [seoViewportOpts] else [])
    ++ (if meta.lang == "" then [seoLangOpts] else [])
    ++ (if meta.favicon == false then [seoFaviconOpts] else [])
    ++ (if meta.ogTitle == "" && meta.ogImage == "" then [seoOgOpts] else [])

/-- C7 (amended): for a page with an empty (or whitespace) `<title>`, no meta
description, and every other checked head feature present, `checkSEO` commits
exactly two bugs, both SEO-category: a Medium bug titled
`Missing page <title>` and a Low bug titled `Missing meta description` —
the actual title string carries the angle brackets. -/
theorem seo_scenario_two_bugs (rawTitle : String) (meta : SEOMeta)
    (h1 : jsTrim rawTitle = "") (h2 : meta.description = "")
    (h3 : meta.viewport ≠ "") (h4 : meta.lang ≠ "") (h5 : meta.favicon = true)
    (h6 : meta.ogTitle ≠ "" ∨ meta.ogImage ≠ "") :
    checkSEOCommits rawTitle meta = [seoTitleOpts, seoDescriptionOpts] ∧
    (checkSEOCommits rawTitle meta).filter
        (fun o => decide (o.category = Category.SEO)) = [seoTitleOpts, seoDescriptionOpts] ∧
    seoTitleOpts.title = "Missing page <title>" ∧ seoTitleOpts.severity = .Medium ∧
    seoDescriptionOpts.title = "Missing meta description" ∧
    seoDescriptionOpts.severity = .Low := by
  have hc : checkSEOCommits rawTitle meta = [seoTitleOpts, seoDescriptionOpts] := by
    rcases h6 with h6 | h6 <;>
      simp [checkSEOCommits, h1, h2, h3, h4, h5, h6]
  refine ⟨hc, ?_, rfl, rfl, rfl, rfl⟩
  rw [hc]
  decide

/-- The Scenario-A head state: only the title and meta description are
missing; viewport, lang, favicon and Open Graph data are present. -/
def seoScenarioMeta : SEOMeta :=
  { description := "", viewport := "width=device-width, initial-scale=1",
    ogTitle := "Home", ogImage := "", charset := true, lang := "en",
    canonical := "", favicon := true }

/-- Counterexample to C7 as stated: in Scenario A no committed bug is titled
`Missing page title` — the code's title string is `Missing page <title>` —
so the claim's quoted title does not occur (while exactly two SEO bugs are
committed). -/
theorem seo_scenario_title_mismatch :
    (checkSEOCommits "" seoScenarioMeta).filter
        (fun o => o.title == "Missing page title") = [] ∧
    (checkSEOCommits "" seoScenarioMeta).length = 2 := by
  decide

/-- Witness for C7 at the concrete Scenario-A page. -/
theorem seo_scenario_two_bugs_witness :
    checkSEOCommits "" seoScenarioMeta = [seoTitleOpts, seoDescriptionOpts] :=
  (seo_scenario_two_bugs "" seoScenarioMeta rfl rfl (by decide) (by decide) rfl
    (Or.inl (by decide))).1

-- ── Broken-link detector (`checkBrokenLinks`, qaAgent.ts:1135-1165) ────────────

/-- Insertion-order deduplication (`[...new Set(list)]`), keeping the first
occurrence: `seen` is the set accumulated so far. -/
def dedupFirstAux [DecidableEq α] : List α → List α → List α
  | _, [] => []
  | seen, x :: xs =>
    if x ∈ seen then dedupFirstAux seen xs else x :: dedupFirstAux (x :: seen) xs

/-- `[...new Set(l)]`. -/
def dedupFirst [DecidableEq α] (l : List α) : List α :=
  dedupFirstAux [] l

lemma dedupFirstAux_of_nodup [DecidableEq α] (l : List α) :
    ∀ seen : List α, l.Nodup → (∀ x ∈ l, x ∉ seen) → dedupFirstAux seen l = l := by
  induction l with
  | nil => intro seen _ _; rfl
  | cons x xs ih =>
    intro seen hnd hdisj
    have hx : x ∉ seen := hdisj x (List.mem_cons_self x xs)
    rw [dedupFirstAux, if_neg hx]
    congr 1
    refine ih (x :: seen) (List.Nodup.of_cons hnd) ?_
    intro y hy hmem
    rcases List.mem_cons.mp hmem with rfl | hmem
    · exact (List.nodup_cons.mp hnd).1 hy
    · exact hdisj y (List.mem_cons_of_mem x hy) hmem

lemma dedupFirst_of_nodup [DecidableEq α] (l : List α) (h : l.Nodup) :
    dedupFirst l = l :=
  dedupFirstAux_of_nodup l [] h (by intro x _ hx; cases hx)

/-- One loop iteration of `checkBrokenLinks`: HEAD-request the link; a status
`>= 400` appends `href -> status`, a thrown request (timeout/network failure)
appends `href -> timeout/network error`, otherwise nothing. -/
def brokenTag (statusOf : String → Except Unit Nat) (href : String) : Option String :=
  match statusOf href with
  | .ok st => if st ≥ 400 then some (href ++ " -> " ++ toString st) else none
  | .error _ => some (href ++ " -> timeout/network error")

/-- `checkBrokenLinks`: from the page's absolute (`http`-prefixed) link hrefs,
deduplicate preserving order, cap at the first 30, HEAD-request each, and if
any are broken commit one Content bug (High when more than 5 broken, else
Medium) whose `details` is the broken list truncated to 20. -/
def checkBrokenLinksCommits (links : List String)
    (statusOf : String → Except Unit Nat) : List AddBugOpts :=
  let unique := (dedupFirst links).take 30
  let broken := unique.filterMap (brokenTag statusOf)
  if broken.length ≠ 0 then
    [{ title := toString broken.length ++ " broken / unreachable link(s)",
       severity := if broken.length > 5 then .High else .Medium,
       category := .Content,
       description := "Links on the page point to unreachable or error-returning URLs.",
       steps := ["Open target URL", "Click links"],
       evidenceLabel := "broken-links",
       details := some (broken.take 20), fullPage := none }]
  else []

/-- Did the HEAD request for `h` answer with status 404? -/
def is404 (statusOf : String → Except Unit Nat) (h : String) : Bool :=
  match statusOf h with
  | .ok st => st == 404
  | .error _ => false

lemma filterMap_brokenTag_404 (statusOf : String → Except Unit Nat) (l : List String)
    (hst : ∀ h ∈ l, statusOf h = .ok 200 ∨ statusOf h = .ok 404) :
    l.filterMap (brokenTag statusOf) =
      (l.filter (is404 statusOf)).map (fun h => h ++ " -> 404") := by
  induction l with
  | nil => rfl
  | cons x xs ih =>
    have hx := hst x (List.mem_cons_self x xs)
    have ihx := ih (fun h hm => hst h (List.mem_cons_of_mem x hm))
    rcases hx with hx | hx
    · have hb : brokenTag statusOf x = none := by
        rw [brokenTag, hx]
        rfl
      have hf : is404 statusOf x = false := by
        rw [is404, hx]
        rfl
      rw [List.filterMap_cons, hb, List.filter_cons, hf, ihx]
      simp
    · have hb : brokenTag statusOf x = some (x ++ " -> 404") := by
        rw [brokenTag, hx]
        show (if (404 : Nat) ≥ 400 then some (x ++ " -> " ++ toString (404 : Nat)) else none) =
          some (x ++ " -> 404")
        rw [if_pos (by decide : (404 : Nat) ≥ 400), String.append_assoc]
        rfl
      have hf : is404 statusOf x = true := by
        rw [is404, hx]
        rfl
      rw [List.filterMap_cons, hb, List.filter_cons, hf, ihx]
      simp

/-- C8 (amended): on a page with 40 distinct absolute links whose HEAD
requests all answer (200 or 404), with exactly 3 links answering 404 *among
the first 30 unique links*, `checkBrokenLinks` commits exactly one Medium
Content bug titled `3 broken / unreachable link(s)` whose details are exactly
those 3 URLs in page order, each suffixed `-> 404`; links beyond the first 30
are never requested, so a 404 outside that window is not reported. -/
theorem broken_links_scenario (links : List String)
    (statusOf : String → Except Unit Nat)
    (hnd : links.Nodup)
    (hst : ∀ h ∈ links.take 30, statusOf h = .ok 200 ∨ statusOf h = .ok 404)
    (hcount : ((links.take 30).filter (is404 statusOf)).length = 3) :
    checkBrokenLinksCommits links statusOf =
      [{ title := "3 broken / unreachable link(s)", severity := .Medium,
         category := .Content,
         description := "Links on the page point to unreachable or error-returning URLs.",
         steps := ["Open target URL", "Click links"],
         evidenceLabel := "broken-links",
         details := some (((links.take 30).filter (is404 statusOf)).map
             (fun h => h ++ " -> 404")),
         fullPage := none }] := by
  have hdedup : dedupFirst links = links := dedupFirst_of_nodup links hnd
  have hbroken :
      ((dedupFirst links).take 30).filterMap (brokenTag statusOf) =
        ((links.take 30).filter (is404 statusOf)).map (fun h => h ++ " -> 404") := by
    rw [hdedup]
    exact filterMap_brokenTag_404 statusOf (links.take 30) hst
  have hlenB :
      (((links.take 30).filter (is404 statusOf)).map
          (fun h => h ++ " -> 404")).length = 3 := by
    rw [List.length_map, hcount]
  have htake :
      (((links.take 30).filter (is404 statusOf)).map
          (fun h => h ++ " -> 404")).take 20 =
        ((links.take 30).filter (is404 statusOf)).map (fun h => h ++ " -> 404") := by
    apply List.take_of_length_le
    rw [hlenB]
    decide
  simp only [checkBrokenLinksCommits]
  rw [hbroken, hlenB, htake]
  rw [if_pos (by decide : (3 : Nat) ≠ 0)]
  rfl

instance : DecidableEq (Except Unit Nat) := fun a b =>
  match a, b with
  | .ok x, .ok y => if h : x = y then isTrue (by rw [h]) else isFalse (by intro hc; cases hc; exact h rfl)
  | .ok _, .error _ => isFalse (by intro hc; cases hc)
  | .error _, .ok _ => isFalse (by intro hc; cases hc)
  | .error x, .error y => isTrue (by cases x; cases y; rfl)

/-- Forty distinct absolute links, in page order. -/
def links40 : List String :=
  (List.range 40).map (fun i => "http://site/p" ++ toString i)

/-- HEAD outcomes for Scenario D: pages 3, 7 and 20 (all within the first 30
links) answer 404, everything else 200. -/
def statusOf40 (h : String) : Except Unit Nat :=
  if h == "http://site/p3" || h == "http://site/p7" || h == "http://site/p20"
  then .ok 404 else .ok 200

/-- HEAD outcomes with the three 404 pages placed beyond the 30-link window
(positions 38-40 in page order). -/
def statusOfTail (h : String) : Except Unit Nat :=
  if h == "http://site/p37" || h == "http://site/p38" || h == "http://site/p39"
  then .ok 404 else .ok 200

/-- Witness for C8 at a concrete page: 40 unique links with 404s at positions
4, 8 and 21 yield exactly one Medium bug listing those three URLs suffixed
`-> 404`. -/
theorem broken_links_scenario_witness :
    checkBrokenLinksCommits links40 statusOf40 =
      [{ title := "3 broken / unreachable link(s)", severity := .Medium,
         category := .Content,
         description := "Links on the page point to unreachable or error-returning URLs.",
         steps := ["Open target URL", "Click links"],
         evidenceLabel := "broken-links",
         details := some ["http://site/p3 -> 404", "http://site/p7 -> 404",
                          "http://site/p20 -> 404"],
         fullPage := none }] := by
  have h := broken_links_scenario links40 statusOf40 (by decide) (by decide) (by decide)
  rw [h]
  decide

/-- Counterexample to C8 as stated: with the same 40 unique links but the
three 404 links at positions 38-40 — outside the 30-link window — the
detector commits no bug at all, so its details cannot contain those URLs. -/
theorem broken_links_outside_window :
    checkBrokenLinksCommits links40 statusOfTail = [] := by
  decide

-- ── Report compiler (`writeReport`, qaAgent.ts:2769-2918) ──────────────────────

/-- The process-scoped state `writeReport` reads: the bug ledger and the
console/exception/network accumulators plus the workflow results. -/
structure RunState where
  bugs : List BugEntry
  consoleErrors : List String
  consoleWarnings : List String
  pageErrors : List String
  failedRequests : List FailedRequest
  workflowResults : List WorkflowResult
deriving DecidableEq, Repr

/-- The comparator key `order = { Critical: 0, High: 1, Medium: 2, Low: 3 }`. -/
def sevRank : Severity → Nat
  | .Critical => 0 | .High => 1 | .Medium => 2 | .Low => 3

/-- The sort relation of `(a, b) => order[a.severity] - order[b.severity]`. -/
def sevLE (a b : BugEntry) : Prop :=
  sevRank a.severity ≤ sevRank b.severity

instance : DecidableRel sevLE := fun _ _ => Nat.decLe _ _

instance : IsTotal BugEntry sevLE := ⟨fun _ _ => Nat.le_total _ _⟩

instance : IsTrans BugEntry sevLE := ⟨fun _ _ _ => Nat.le_trans⟩

/-- `[...bugs].sort((a, b) => order[a.severity] - order[b.severity])`: the
severity sort the bug-entry section iterates.  JS engines implement a stable
sort (required since ES2019), applied here to a fresh copy of the ledger;
insertion sort on the rank order is that stable sort. -/
def reportBugOrder (bugs : List BugEntry) : List BugEntry :=
  List.insertionSort sevLE bugs

/-- `bugs.filter(b => b.severity === s).length` (the `bySev` closure). -/
def bySevCount (st : RunState) (s : Severity) : Nat :=
  (st.bugs.filter (fun b => decide (b.severity = s))).length

/-- `` `${r.status ?? r.failure}` ``: status if present, else failure text,
else the JS `undefined` rendering. -/
def reqOutcome (r : FailedRequest) : String :=
  match r.status with
  | some st => toString st
  | none =>
    match r.failure with
    | some f => f
    | none => "undefined"

/-- `forEach((x, i) => ...)` with a running index. -/
def mapIdxFrom (f : Nat → α → β) : Nat → List α → List β
  | _, [] => []
  | i, x :: xs => f i x :: mapIdxFrom f (i + 1) xs

/-- The prompt `generateLLMReportSummary` (qaAgent.ts:701-733) sends to the
oracle. -/
def reportSummaryPrompt (url scope : String) (st : RunState) : String :=
  let bugSummaries := String.intercalate "\n" (st.bugs.map
    (fun b => "[" ++ sevStr b.severity ++ "] " ++ b.title ++ ": " ++ b.description))
  let wfSummaries := String.intercalate "\n" (st.workflowResults.map
    (fun w => "[" ++ (if w.passed then "PASS" else "FAIL") ++ "] " ++ w.name))
  "You are a senior QA engineer writing an executive summary for a QA test report.\n\n"
    ++ "Website tested: " ++ url ++ "\n"
    ++ "Scope: " ++ scope ++ "\n"
    ++ "Total bugs found: " ++ toString st.bugs.length ++ "\n"
    ++ "Critical: " ++ toString (bySevCount st .Critical) ++ "\n"
    ++ "High: " ++ toString (bySevCount st .High) ++ "\n"
    ++ "Medium: " ++ toString (bySevCount st .Medium) ++ "\n"
    ++ "Low: " ++ toString (bySevCount st .Low) ++ "\n\n"
    ++ "Bugs found:\n" ++ bugSummaries.take 3000 ++ "\n\n"
    ++ "Workflow results:\n" ++ wfSummaries.take 2000 ++ "\n\n"
    ++ "Write a concise executive summary (3-5 paragraphs) that:\n"
    ++ "1. Describes the overall quality of the website\n"
    ++ "2. Highlights the most critical issues that need immediate attention\n"
    ++ "3. Groups related issues into themes\n"
    ++ "4. Provides prioritized recommendations\n"
    ++ "5. Notes any positive aspects of the site\n\n"
    ++ "Write in professional QA report style. Use markdown formatting."

/-- `generateLLMReportSummary`: `''` with no effect when no model is
configured, otherwise one `askGemini` text call over the summary prompt. -/
def generateLLMReportSummary (avail : Bool) (env : OracleEnv) (url scope : String)
    (st : RunState) : String × List Effect :=
  if !avail then ("", [])
  else askGeminiRun env (reportSummaryPrompt url scope st)

/-- Lines 2772-2783: the report header table; the `Date` row (index 6) embeds
`new Date().toISOString()` taken at compile time. -/
def reportHeader (runId url scope now : String) (llmEnabled : Bool) (nBugs : Nat) :
    List String :=
  ["# QA Test Report", "",
   "| Field | Value |", "|-------|-------|",
   "| URL | " ++ url ++ " |",
   "| Run | " ++ runId ++ " |",
   "| Date | " ++ now ++ " |",
   "| Browser | Chromium (Playwright, headless) |",
   "| AI Engine | " ++ (if llmEnabled then "Gemini 2.5 Flash + 2.5 Flash Lite"
                        else "Disabled (no API key)") ++ " |",
   "| Scope | " ++ scope ++ " |",
   "| Bugs Found | **" ++ toString nBugs ++ "** |",
   ""]

/-- Lines 2786-2795: the AI executive summary, present only when the LLM is
enabled and the oracle returned non-empty text. -/
def aiSummarySection (llmEnabled : Bool) (env : OracleEnv) (url scope : String)
    (st : RunState) : List String :=
  if llmEnabled then
    let s := (generateLLMReportSummary llmEnabled env url scope st).1
    if s ≠ "" then ["## AI Executive Summary", "", s, ""] else []
  else []

/-- Lines 2799-2807: the severity count table. -/
def summarySection (st : RunState) : List String :=
  ["## Summary", "", "| Severity | Count |", "|----------|-------|",
   "| Critical | " ++ toString (bySevCount st .Critical) ++ " |",
   "| High | " ++ toString (bySevCount st .High) ++ " |",
   "| Medium | " ++ toString (bySevCount st .Medium) ++ " |",
   "| Low | " ++ toString (bySevCount st .Low) ++ " |",
   ""]

/-- Lines 2810-2816: the category count table over
`[...new Set(bugs.map(b => b.category))]`. -/
def categorySection (st : RunState) : List String :=
  let cats := dedupFirst (st.bugs.map (fun b => b.category))
  if cats.length ≠ 0 then
    ["| Category | Count |", "|----------|-------|"]
      ++ cats.map (fun c => "| " ++ catStr c ++ " | "
          ++ toString (st.bugs.filter (fun b => decide (b.category = c))).length ++ " |")
      ++ [""]
  else []

/-- Lines 2819-2837: console errors / uncaught exceptions / warnings,
truncated to 25/25/10. -/
def runtimeSignalsSection (st : RunState) : List String :=
  if st.consoleErrors.length ≠ 0 ∨ st.pageErrors.length ≠ 0 ∨
      st.consoleWarnings.length ≠ 0 then
    ["## Runtime Signals", ""]
      ++ (if st.consoleErrors.length ≠ 0 then
            ("### Console Errors (" ++ toString st.consoleErrors.length ++ ")")
              :: (st.consoleErrors.take 25).map (fun e => "- `" ++ e ++ "`") ++ [""]
          else [])
      ++ (if st.pageErrors.length ≠ 0 then
            ("### Uncaught Exceptions (" ++ toString st.pageErrors.length ++ ")")
              :: (st.pageErrors.take 25).map (fun e => "- `" ++ e ++ "`") ++ [""]
          else [])
      ++ (if st.consoleWarnings.length ≠ 0 then
            ("### Console Warnings (" ++ toString st.consoleWarnings.length ++ ")")
              :: (st.consoleWarnings.take 10).map (fun e => "- `" ++ e ++ "`") ++ [""]
          else [])
  else []

/-- Lines 2840-2847: failed network requests, truncated to 30. -/
def failedRequestsSection (st : RunState) : List String :=
  if st.failedRequests.length ≠ 0 then
    ("## Failed Network Requests (" ++ toString st.failedRequests.length ++ ")") :: "" ::
      (st.failedRequests.take 30).map (fun r =>
        "- `" ++ r.method ++ " " ++ r.url ++ "` -> " ++ reqOutcome r
          ++ " (" ++ r.resourceType ++ ")")
      ++ [""]
  else []

/-- Lines 2850-2879: workflow pass/fail counts and per-workflow step tables. -/
def workflowSection (st : RunState) : List String :=
  if st.workflowResults.length ≠ 0 then
    ["## Workflow Test Results", "",
     "| Metric | Count |", "|--------|-------|",
     "| Total Workflows | " ++ toString st.workflowResults.length ++ " |",
     "| Passed | " ++ toString (st.workflowResults.filter (fun w => w.passed)).length ++ " |",
     "| Failed | " ++ toString (st.workflowResults.filter (fun w => !w.passed)).length ++ " |",
     ""]
      ++ st.workflowResults.flatMap (fun wf =>
          ("#### [" ++ (if wf.passed then "PASS" else "FAIL") ++ "] " ++ wf.name) :: "" ::
            ((if wf.steps.length ≠ 0 then
                ["| Step | Action | Target | Expected |", "|------|--------|--------|----------|"]
                  ++ mapIdxFrom (fun i s =>
                      "| " ++ toString (i + 1) ++ " | " ++ s.action ++ " | "
                        ++ s.target.getD "-" ++ " | " ++ s.expect.getD "-" ++ " |") 0 wf.steps
                  ++ [""]
              else [])
              ++ (match wf.error with
                  | some e => ["> **Error:** " ++ e, ""]
                  | none => [])))
  else []

/-- Lines 2882-2914: the per-bug section over the severity-sorted copy of the
ledger. -/
def bugEntriesSection (st : RunState) : List String :=
  ["## Bug Entries", ""]
    ++ (if st.bugs.length = 0 then ["No issues detected in this pass."]
        else (reportBugOrder st.bugs).flatMap (fun bug =>
          ("### " ++ bug.id ++ ": " ++ bug.title) :: "" ::
            "| Field | Value |" :: "|-------|-------|" ::
            ("| Severity | **" ++ sevStr bug.severity ++ "** |") ::
            ("| Category | " ++ catStr bug.category ++ " |") ::
            ("| Description | " ++ bug.description ++ " |") :: "" ::
            "**Steps to reproduce:**" ::
            (mapIdxFrom (fun i s => toString (i + 1) ++ ". " ++ s) 0 bug.steps
              ++ [""]
              ++ (match bug.details with
                  | some ds =>
                    if ds.length ≠ 0 then
                      "**Details:**" :: ds.map (fun d => "- " ++ d) ++ [""]
                    else []
                  | none => [])
              ++ ["**Evidence:**"]
              ++ bug.evidence.map (fun e => "- ![" ++ bug.id ++ "](" ++ e ++ ")")
              ++ ["", "---", ""])))

/-- The full line sequence `L` that `writeReport` joins with `\n` and writes. -/
def writeReportLines (runId url scope now : String) (llmEnabled : Bool)
    (env : OracleEnv) (st : RunState) : List String :=
  reportHeader runId url scope now llmEnabled st.bugs.length
    ++ aiSummarySection llmEnabled env url scope st
    ++ summarySection st
    ++ categorySection st
    ++ runtimeSignalsSection st
    ++ failedRequestsSection st
    ++ workflowSection st
    ++ bugEntriesSection st

/-- The result of one `writeReport` call. -/
structure ReportRun where
  lines : List String
  effects : List Effect
  state : RunState

/-- `writeReport` as a whole: it reads the state, optionally performs the one
oracle call for the AI summary (when `LLM_ENABLED`), then `ensureDir` and
`fs.writeFile`.  It never touches the browser, and it returns the run state
unchanged — the severity sort operates on the spread copy `[...bugs]`. -/
def writeReportRun (runId url scope now : String) (llmEnabled : Bool)
    (env : OracleEnv) (st : RunState) : ReportRun :=
  { lines := writeReportLines runId url scope now llmEnabled env st,
    effects := (if llmEnabled then (generateLLMReportSummary llmEnabled env url scope st).2
                else []) ++ [Effect.fsMkdir, Effect.fsWrite],
    state := st }

/-- C4: the bug-entry section's order is sorted by the fixed severity rank
Critical, High, Medium, Low and is a permutation of the ledger: every bug is
listed, grouped by severity in that fixed order, regardless of discovery
order. -/
theorem report_severity_order (bugs : List BugEntry) :
    List.Sorted sevLE (reportBugOrder bugs) ∧ List.Perm (reportBugOrder bugs) bugs :=
  ⟨List.sorted_insertionSort sevLE bugs, List.perm_insertionSort sevLE bugs⟩

lemma filter_sev_orderedInsert (a : BugEntry) (l : List BugEntry) (s : Severity) :
    (List.orderedInsert sevLE a l).filter (fun b => decide (b.severity = s)) =
      if a.severity = s then a :: l.filter (fun b => decide (b.severity = s))
      else l.filter (fun b => decide (b.severity = s)) := by
  induction l with
  | nil =>
    by_cases has : a.severity = s <;> simp [List.orderedInsert, has]
  | cons b t ih =>
    rw [List.orderedInsert]
    by_cases hab : sevLE a b
    · rw [if_pos hab]
      by_cases has : a.severity = s <;> simp [List.filter_cons, has]
    · rw [if_neg hab]
      rw [List.filter_cons]
      by_cases hbs : b.severity = s
      · have has : a.severity ≠ s := by
          intro h
          exact hab (by rw [sevLE, h, hbs])
        simp [List.filter_cons, hbs, has, ih]
      · simp [List.filter_cons, hbs, ih]

lemma filter_sev_reportBugOrder (bugs : List BugEntry) (s : Severity) :
    (reportBugOrder bugs).filter (fun b => decide (b.severity = s)) =
      bugs.filter (fun b => decide (b.severity = s)) := by
  rw [reportBugOrder]
  induction bugs with
  | nil => rfl
  | cons x l ih =>
    rw [List.insertionSort, filter_sev_orderedInsert, List.filter_cons]
    by_cases hxs : x.severity = s <;> simp [hxs, ih]

/-- C10: compiling the report leaves the ledger untouched (the sort operates
on a copy, and `writeReportRun` returns the state unchanged), and the
severity sort is stable: within each severity, the report lists bugs in their
ledger (discovery) order — the sorted copy filtered to any one severity is
exactly the ledger filtered to that severity. -/
theorem report_preserves_ledger :
    (∀ (runId url scope now : String) (llmEnabled : Bool) (env : OracleEnv)
        (st : RunState),
        (writeReportRun runId url scope now llmEnabled env st).state = st) ∧
    (∀ (bugs : List BugEntry) (s : Severity),
        (reportBugOrder bugs).filter (fun b => decide (b.severity = s)) =
          bugs.filter (fun b => decide (b.severity = s))) :=
  ⟨fun _ _ _ _ _ _ _ => rfl, filter_sev_reportBugOrder⟩

/-- C5 (amended): the compiled report is a function of the snapshot, the
wall-clock timestamp and the oracle summary: with those fixed it is
byte-identical, and two compilations over an unchanged snapshot (same state,
same oracle behaviour) agree on every line except the `Date` row at index 6,
which embeds `new Date().toISOString()`. -/
theorem report_deterministic_modulo_date (runId url scope : String)
    (llmEnabled : Bool) (env : OracleEnv) (st : RunState) (t1 t2 : String) :
    (writeReportLines runId url scope t1 llmEnabled env st).take 6 =
      (writeReportLines runId url scope t2 llmEnabled env st).take 6 ∧
    (writeReportLines runId url scope t1 llmEnabled env st).drop 7 =
      (writeReportLines runId url scope t2 llmEnabled env st).drop 7 := by
  constructor <;> rfl

/-- The empty run state: nothing detected, no accumulator content. -/
def emptyRunState : RunState :=
  { bugs := [], consoleErrors := [], consoleWarnings := [], pageErrors := [],
    failedRequests := [], workflowResults := [] }

/-- An oracle environment with no model configured. -/
def oracleOff : OracleEnv :=
  { available := false, call1 := .ok "", call2 := .ok "" }

/-- Counterexample to C5 as stated: over the very same (empty) snapshot, two
compiler runs at different wall-clock instants produce different report
bytes, because the `Date` header row embeds the compile-time timestamp. -/
theorem report_not_idempotent_bytes :
    writeReportLines "run-1" "http://site" "Full QA scan"
        "2025-01-01T00:00:00.000Z" false oracleOff emptyRunState ≠
      writeReportLines "run-1" "http://site" "Full QA scan"
        "2025-01-02T00:00:00.000Z" false oracleOff emptyRunState := by
  decide

/-- Witness for C5 at concrete inputs: the two runs at distinct timestamps
agree outside the Date row. -/
theorem report_deterministic_modulo_date_witness :
    (writeReportLines "run-1" "http://site" "Full QA scan"
        "2025-01-01T00:00:00.000Z" false oracleOff emptyRunState).take 6 =
      (writeReportLines "run-1" "http://site" "Full QA scan"
        "2025-01-02T00:00:00.000Z" false oracleOff emptyRunState).take 6 ∧
    (writeReportLines "run-1" "http://site" "Full QA scan"
        "2025-01-01T00:00:00.000Z" false oracleOff emptyRunState).drop 7 =
      (writeReportLines "run-1" "http://site" "Full QA scan"
        "2025-01-02T00:00:00.000Z" false oracleOff emptyRunState).drop 7 :=
  report_deterministic_modulo_date "run-1" "http://site" "Full QA scan"
    false oracleOff emptyRunState
    "2025-01-01T00:00:00.000Z" "2025-01-02T00:00:00.000Z"

lemma askGeminiRun_effects (env : OracleEnv) (prompt : String) :
    (askGeminiRun env prompt).2 = [] ∨
    (askGeminiRun env prompt).2 = [Effect.oracleNet] ∨
    (askGeminiRun env prompt).2 = [Effect.oracleNet, Effect.oracleNet] := by
  rw [askGeminiRun]
  cases env.available with
  | false => left; rfl
  | true =>
    cases env.call1 with
    | ok t => right; left; rfl
    | error e =>
      by_cases hrl : rateLimitedMsg e = true
      · cases env.call2 with
        | ok t => simp [hrl]
        | error e2 => simp [hrl]
      · simp [hrl]

/-- C6 (amended): compiling the report performs no browser calls, and its
only possible external calls are the single oracle network call for the AI
executive summary (plus its one rate-limit retry) and the report file-system
writes; when the LLM is not enabled the effects are exactly the directory
creation and the file write — a pure read of ledger, accumulators and
workflow results. -/
theorem report_compiler_effects (runId url scope now : String) (llmEnabled : Bool)
    (env : OracleEnv) (st : RunState) :
    Effect.browser ∉ (writeReportRun runId url scope now llmEnabled env st).effects ∧
    (llmEnabled = false →
      (writeReportRun runId url scope now llmEnabled env st).effects =
        [Effect.fsMkdir, Effect.fsWrite]) ∧
    (∀ e ∈ (writeReportRun runId url scope now llmEnabled env st).effects,
      e = Effect.oracleNet ∨ e = Effect.fsMkdir ∨ e = Effect.fsWrite) := by
  have heff :
      (writeReportRun runId url scope now llmEnabled env st).effects =
        (if llmEnabled then (generateLLMReportSummary llmEnabled env url scope st).2
         else []) ++ [Effect.fsMkdir, Effect.fsWrite] := rfl
  have hsub : ∀ e ∈ (writeReportRun runId url scope now llmEnabled env st).effects,
      e = Effect.oracleNet ∨ e = Effect.fsMkdir ∨ e = Effect.fsWrite := by
    intro e he
    rw [heff] at he
    rcases List.mem_append.mp he with he | he
    · by_cases hl : llmEnabled = true
      · rw [if_pos hl] at he
        rw [generateLLMReportSummary] at he
        by_cases hav : (!llmEnabled) = true
        · rw [if_pos hav] at he
          cases he
        · rw [if_neg hav] at he
          rcases askGeminiRun_effects env (reportSummaryPrompt url scope st) with h0 | h0 | h0 <;>
            rw [h0] at he
          · cases he
          · rcases List.mem_singleton.mp he with rfl
            exact Or.inl rfl
          · rcases List.mem_cons.mp he with rfl | he
            · exact Or.inl rfl
            · rcases List.mem_singleton.mp he with rfl
              exact Or.inl rfl
      · rw [if_neg hl] at he
        cases he
    · rcases List.mem_cons.mp he with rfl | he
      · exact Or.inr (Or.inl rfl)
      · rcases List.mem_singleton.mp he with rfl
        exact Or.inr (Or.inr rfl)
  refine ⟨?_, ?_, hsub⟩
  · intro hmem
    rcases hsub Effect.browser hmem with h | h | h <;> cases h
  · intro hl
    rw [heff, hl]
    rfl

/-- Counterexample to C6 as stated: with the LLM enabled (an API key is
configured) the report compiler itself performs a network call — the oracle
query for the AI executive summary appears in its effect trace. -/
theorem report_compiler_makes_network_call :
    Effect.oracleNet ∈ (writeReportRun "run-1" "http://site" "Full QA scan"
        "2025-01-01T00:00:00.000Z" true ⟨true, .ok "summary text", .ok ""⟩
        emptyRunState).effects := by
  decide

/-- Witness for C6's amended theorem at concrete inputs. -/
theorem report_compiler_effects_witness :
    (writeReportRun "run-1" "http://site" "Full QA scan" "2025-01-01T00:00:00.000Z"
        false oracleOff emptyRunState).effects = [Effect.fsMkdir, Effect.fsWrite] ∧
    (Effect.fsMkdir = Effect.oracleNet ∨ Effect.fsMkdir = Effect.fsMkdir ∨
      Effect.fsMkdir = Effect.fsWrite) :=
  ⟨(report_compiler_effects "run-1" "http://site" "Full QA scan"
      "2025-01-01T00:00:00.000Z" false oracleOff emptyRunState).2.1 rfl,
   (report_compiler_effects "run-1" "http://site" "Full QA scan"
      "2025-01-01T00:00:00.000Z" false oracleOff emptyRunState).2.2
      Effect.fsMkdir (by decide)⟩

end QFlow
